import Mathlib

/-
Shallow embedding of the go-apc protocol engine (package apc):
the Frame Reader (Client.readEvents), the Session Loop (Client.Start),
client construction (NewClient handshake) and the connection lifecycle.
Source: cmd/apcctl/main.go (CLI) together with the apc client code.
Parts of the repository outside src (the event decoder, the terminator
constants and the command-registration path) are modelled from the spec
where a claim needs them; each such definition says so in its doc comment.
-/

namespace Apc

/-- Connection-state constant from the source: ConnOK = iota = 0. -/
def ConnOK : Nat := 0

/-- Connection-state constant from the source: ConnClosed = 1. -/
def ConnClosed : Nat := 1

/-- Event kinds. Modelled from the spec: the data model gives the Event
kind as one of Notification and Response; the source tests
event.Type == EventTypeNotification and treats every other kind as a
response to be matched against the request table. -/
inductive EventType
  | notification
  | response
  deriving DecidableEq, Repr

/-- Decoded protocol event. Field names follow the Go struct as used by
the source (Keyword, Type, Client, ProcessID, InvokeID, Segments,
Incomplete); Type is spelled etype because Type is reserved in Lean.
The start flag is modelled from the spec: the payload can carry a
free-form status flag such as the session-start signal, queried by
IsStart. -/
structure Event where
  Keyword : String
  etype : EventType
  Client : String
  ProcessID : Nat
  InvokeID : Nat
  Segments : Nat
  Incomplete : Bool
  start : Bool
  deriving DecidableEq, Repr

/-- Modelled from the spec: a record whose kind flags start is recognized
specially by the caller of the decoder; IsStart reports that flag. -/
def Event.IsStart (e : Event) : Bool := e.start

/-- Errors of the client, from the source: ErrConnectionClosed and
ErrHelloNotReceived. -/
inductive ApcError
  | connectionClosed
  | helloNotReceived
  deriving DecidableEq, Repr

/-- The source value ErrConnectionClosed. -/
def ErrConnectionClosed : ApcError := ApcError.connectionClosed

/-- The source value ErrHelloNotReceived. -/
def ErrHelloNotReceived : ApcError := ApcError.helloNotReceived

/-- Log entries emitted by the embedded code paths, one constructor per
logger call site in the source: the debug line for a raw received chunk,
the info line for a decoded event, the error line for a decode failure,
and the error line printed by NewClient when the handshake fails. -/
inductive LogEntry
  | eventReceived (raw : List Nat)
  | eventDecoded (keyword : String)
  | decodeFailure (err : Nat)
  | serverCannotAccept
  deriving DecidableEq, Repr

/-- Tests whether a log entry is the decode-failure error line. -/
def isDecodeFailureLog : LogEntry → Bool
  | LogEntry.decodeFailure _ => true
  | _ => false

/-- Modelled from the spec: the final-record terminator control byte
(standard ASCII ETX); the constant itself is defined outside src. -/
def ETX : Nat := 3

/-- Modelled from the spec: the continuation-record terminator control
byte (standard ASCII ETB); the constant itself is defined outside src. -/
def ETB : Nat := 23

/-- The framing test of readEvents: buf with n bytes is handed to the
decoder exactly when buf at index n-1 is ETX or ETB. -/
def endsInTerminator (chunk : List Nat) : Bool :=
  match chunk.getLast? with
  | some b => b == ETX || b == ETB
  | none => false

/-- Stream-level failures of the underlying read: end of stream,
deadline expiry, other errno values. -/
inductive StreamErr
  | eof
  | timeout
  | errno (code : Nat)
  deriving DecidableEq, Repr

/-- One result of decoder.Read in readEvents: either a chunk of n bytes
or an I/O error. -/
inductive ReadResult
  | chunk (bytes : List Nat)
  | streamError (e : StreamErr)
  deriving DecidableEq, Repr

/-- Tests whether a read result is a plain chunk. -/
def ReadResult.isChunk : ReadResult → Bool
  | ReadResult.chunk _ => true
  | ReadResult.streamError _ => false

/-- The body of the readEvents loop for one successfully read chunk,
parameterized by the event decoder (decodeEvent lives outside src).
If the chunk ends in ETX or ETB the raw event is logged, decoded, and on
success logged again and delivered; a decode failure is logged and the
record skipped. A chunk not ending in a terminator produces nothing: it
is discarded, no buffering for reassembly exists in the loop. -/
def processChunk (dec : List Nat → Except Nat Event) (chunk : List Nat) :
    List LogEntry × List Event :=
  if endsInTerminator chunk then
    match dec chunk with
    | Except.error err => ([LogEntry.eventReceived chunk, LogEntry.decodeFailure err], [])
    | Except.ok e => ([LogEntry.eventReceived chunk, LogEntry.eventDecoded e.Keyword], [e])
  else ([], [])

/-- Output of a run of readEvents over a finite prefix of the stream:
the logs emitted, the events delivered to the internal queue, and the
I/O error that terminated the loop, if one occurred. -/
structure ReaderOutput where
  logs : List LogEntry
  events : List Event
  err : Option StreamErr
  deriving DecidableEq, Repr

/-- Client.readEvents over a finite list of read results: chunks are
framed and decoded in order; the first I/O error (disconnect, deadline
expiry) terminates the loop and is returned. -/
def readEvents (dec : List Nat → Except Nat Event) :
    List ReadResult → ReaderOutput
  | [] => { logs := [], events := [], err := none }
  | ReadResult.chunk c :: rest =>
      let pc := processChunk dec c
      let r := readEvents dec rest
      { logs := pc.1 ++ r.logs, events := pc.2 ++ r.events, err := r.err }
  | ReadResult.streamError e :: _ =>
      { logs := [], events := [], err := some e }

/-- Shared mutable state of the client as seen by the Session Loop:
the atomic connection state word, the three close flags (underlying
connection, notification channel, events channel), the request table
(the set of registered invoke ids), the events delivered to waiting
requests, the done signals delivered to waiting requests, and the
events forwarded to the notification channel. -/
structure ClientState where
  connState : Nat
  connClosed : Bool
  notifClosed : Bool
  eventsClosed : Bool
  requests : List Nat
  responses : List (Nat × Event)
  signalled : List Nat
  sink : List Event
  deriving DecidableEq, Repr

/-- The state built by NewClient: state ConnOK, nothing closed, empty
request table, nothing delivered. -/
def initState : ClientState :=
  { connState := ConnOK, connClosed := false, notifClosed := false,
    eventsClosed := false, requests := [], responses := [],
    signalled := [], sink := [] }

/-- The event branch of the select in Client.Start, together with the
log entries that branch emits. A notification event is sent to the
notification channel and the loop continues; any other event has its
InvokeID looked up in the request table: on a hit the event is sent on
that request's event channel, on a miss nothing happens — the source
contains no statement at all in the miss case, in particular no logger
call, so the emitted log list is empty on every path. -/
def routeEvent (s : ClientState) (e : Event) : ClientState × List LogEntry :=
  if e.etype = EventType.notification then
    ({ s with sink := s.sink ++ [e] }, [])
  else if e.InvokeID ∈ s.requests then
    ({ s with responses := s.responses ++ [(e.InvokeID, e)] }, [])
  else
    (s, [])

/-- Atomic actions on the client state: the five statements of the
shutdown branch of Client.Start, each a separate atomic step, and the
registration of a new pending request (the command-invocation path,
which lives outside src). -/
inductive Act
  | storeClosed
  | closeConn
  | closeNotif
  | closeEvents
  | drain
  | register (id : Nat)
  deriving DecidableEq, Repr

/-- Modelled from the spec: the command-invocation path registering a
PendingRequest is outside src; per the spec, once the connection state
is Closed no further command may be newly registered and any attempt
fails immediately with a closed-connection error, otherwise the request
is inserted in the table under exclusive access. -/
def registerCommand (s : ClientState) (id : Nat) : ClientState × Option ApcError :=
  if s.connState = ConnClosed then (s, some ApcError.connectionClosed)
  else ({ s with requests := id :: s.requests }, none)

/-- Effect of one atomic action: the five shutdown statements update
their respective fields (drain sends done to every request currently in
the table); register applies the spec-modelled registration. -/
def applyAct (s : ClientState) : Act → ClientState
  | Act.storeClosed => { s with connState := ConnClosed }
  | Act.closeConn => { s with connClosed := true }
  | Act.closeNotif => { s with notifClosed := true }
  | Act.closeEvents => { s with eventsClosed := true }
  | Act.drain => { s with signalled := s.signalled ++ s.requests }
  | Act.register id => (registerCommand s id).1

/-- Runs a list of atomic actions in order. -/
def runActs (s : ClientState) : List Act → ClientState
  | [] => s
  | a :: rest => runActs (applyAct s a) rest

/-- The shutdown branch of Client.Start in program order: store
ConnClosed, close the connection, close the notification channel, close
the events channel, send done to every active request. -/
def shutdownSeq : List Act :=
  [Act.storeClosed, Act.closeConn, Act.closeNotif, Act.closeEvents, Act.drain]

/-- Running the shutdown branch from a given state. -/
def shutdownStep (s : ClientState) : ClientState := runActs s shutdownSeq

/-- A list of actions made only of register steps. -/
def regsOnly (l : List Act) : Prop := ∀ a ∈ l, ∃ id, a = Act.register id

/-- An interleaving of the five shutdown statements, in program order,
with arbitrary concurrent registrations before, between and after them. -/
def isShutdownInterleaving (acts : List Act) : Prop :=
  ∃ r0 r1 r2 r3 r4 r5,
    regsOnly r0 ∧ regsOnly r1 ∧ regsOnly r2 ∧ regsOnly r3 ∧
    regsOnly r4 ∧ regsOnly r5 ∧
    acts = r0 ++ Act.storeClosed :: r1 ++ Act.closeConn :: r2 ++
      Act.closeNotif :: r3 ++ Act.closeEvents :: r4 ++ Act.drain :: r5

/-- Order discipline of the effects of the shutdown branch: the
connection handle is only closed after the state word reads ConnClosed,
the notification channel only after the connection, the events channel
only after the notification channel, and done signals only after the
events channel closed. -/
def orderInv (s : ClientState) : Prop :=
  (s.connClosed = true → s.connState = ConnClosed) ∧
  (s.notifClosed = true → s.connClosed = true) ∧
  (s.eventsClosed = true → s.notifClosed = true) ∧
  (s.signalled ≠ [] → s.eventsClosed = true)

/-- Inputs consumed by the select of Client.Start: a decoded event from
the events channel, or a shutdown signal (from Stop or from the reader
goroutine reporting a fatal error). -/
inductive LoopMsg
  | ev (e : Event)
  | shutdown
  deriving DecidableEq, Repr

/-- Client.Start over a finite prefix of its inputs: events are routed,
the first shutdown signal runs the shutdown branch and returns
ErrConnectionClosed; if the prefix is exhausted the loop is still
running and no value has been returned. -/
def startLoop (s : ClientState) : List LoopMsg → ClientState × Option ApcError
  | [] => (s, none)
  | LoopMsg.ev e :: rest => startLoop (routeEvent s e).1 rest
  | LoopMsg.shutdown :: _ => (shutdownStep s, some ApcError.connectionClosed)

/-- Outcome of the first-event phase of NewClient: either the recv on
the events channel returned and NewClient finished with a result, also
recording whether NewClient closed the connection on that path, or the
recv blocked forever. -/
inductive ConstructionOutcome
  | returned (result : Except ApcError Unit) (connWasClosed : Bool) (logs : List LogEntry)
  | blocked
  deriving Repr

/-- The tail of NewClient after spawning the reader goroutine: receive
the first event from the events channel and check it is the AGTSTART
start notification. When no event ever arrives the receive blocks (the
reader goroutine, on error, blocks sending to the shutdown channel that
nobody reads before Start runs). On a bad first event NewClient logs,
returns ErrHelloNotReceived and no client; no statement on that path
closes the connection, so connWasClosed is false. -/
def newClientHandshake : Option Event → ConstructionOutcome
  | none => ConstructionOutcome.blocked
  | some event =>
      if event.Keyword ≠ "AGTSTART" ∨ event.IsStart = false then
        ConstructionOutcome.returned (Except.error ApcError.helloNotReceived)
          false [LogEntry.serverCannotAccept]
      else
        ConstructionOutcome.returned (Except.ok ()) false []

/-- The reader goroutine spawned by NewClient composed with Start: the
events decoded by readEvents are fed to the loop in order and, exactly
when readEvents returned an error, a shutdown signal follows them. -/
def pipeline (dec : List Nat → Except Nat Event) (reads : List ReadResult) :
    ClientState × Option ApcError :=
  let ro := readEvents dec reads
  match ro.err with
  | some _ => startLoop initState (ro.events.map LoopMsg.ev ++ [LoopMsg.shutdown])
  | none => startLoop initState (ro.events.map LoopMsg.ev)

/-- A full client session over a finite queue of decoded events:
NewClient consumes the first event from the queue for the handshake;
only when the handshake succeeds does Start run, over the remaining
events. An empty queue leaves NewClient blocked; a failed handshake
returns no client, so Start never runs. -/
def sessionRun (queue : List Event) : Option (ClientState × Option ApcError) :=
  match queue with
  | [] => none
  | e :: rest =>
      match newClientHandshake (some e) with
      | ConstructionOutcome.returned (Except.ok _) _ _ =>
          some (startLoop initState (rest.map LoopMsg.ev))
      | _ => none

/-- A concrete decoder used to instantiate witnesses: fails on chunks of
length at most one, otherwise returns a fixed response event carrying
the chunk length as invoke id. -/
def testDecode (bs : List Nat) : Except Nat Event :=
  if bs.length ≤ 1 then Except.error 0
  else Except.ok
    { Keyword := "AGTTEST", etype := EventType.response, Client := "c",
      ProcessID := 1, InvokeID := bs.length, Segments := 1,
      Incomplete := false, start := false }

/-- A well-formed session-start notification, as in the handshake. -/
def startEvent : Event :=
  { Keyword := "AGTSTART", etype := EventType.notification, Client := "agent",
    ProcessID := 1, InvokeID := 0, Segments := 1, Incomplete := false,
    start := true }

/-- A first event that is not a start notification. -/
def errorEvent : Event :=
  { Keyword := "ERROR", etype := EventType.notification, Client := "agent",
    ProcessID := 1, InvokeID := 0, Segments := 1, Incomplete := false,
    start := false }

/-- An unsolicited notification event. -/
def notifEvent : Event :=
  { Keyword := "AGTCallNotify", etype := EventType.notification,
    Client := "agent", ProcessID := 1, InvokeID := 0, Segments := 1,
    Incomplete := false, start := false }

/-- A response event carrying a given invoke id. -/
def respEvent (id : Nat) : Event :=
  { Keyword := "AGTLogon", etype := EventType.response, Client := "agent",
    ProcessID := 1, InvokeID := id, Segments := 1, Incomplete := false,
    start := false }

/-- Concrete initial state for the shutdown-interleaving witness: two
requests already registered. -/
def wState : ClientState := { initState with requests := [1, 2] }

/-- Concrete interleaving for the shutdown witness: registrations land
before the state flip, between two shutdown statements, and after the
drain. -/
def wActs : List Act :=
  [Act.register 5, Act.storeClosed, Act.register 7, Act.closeConn,
   Act.closeNotif, Act.closeEvents, Act.drain, Act.register 9]

/-- State after the first shutdown statement: the word flips. -/
def shutA (s : ClientState) : ClientState := { s with connState := ConnClosed }

/-- State after the second shutdown statement: connection closed. -/
def shutB (s : ClientState) : ClientState := { shutA s with connClosed := true }

/-- State after the third shutdown statement: notification channel
closed. -/
def shutC (s : ClientState) : ClientState := { shutB s with notifClosed := true }

/-- State after the fourth shutdown statement: events channel closed. -/
def shutD (s : ClientState) : ClientState :=
  { shutC s with eventsClosed := true }

/-- State after the drain: done sent to every request in the table. -/
def shutE (s : ClientState) : ClientState :=
  { shutD s with signalled := s.signalled ++ s.requests }

/-- Running actions over an appended list runs the two parts in order. -/
theorem runActs_append (s : ClientState) (l1 l2 : List Act) :
    runActs s (l1 ++ l2) = runActs (runActs s l1) l2 := by
  induction l1 generalizing s with
  | nil => rfl
  | cons a rest ih => exact ih (applyAct s a)

/-- Once the state word is ConnClosed, a register action is a no-op, so
a run of register actions leaves the state unchanged. -/
theorem runActs_regs_closed (s : ClientState) (l : List Act)
    (hl : regsOnly l) (hs : s.connState = ConnClosed) :
    runActs s l = s := by
  induction l generalizing s with
  | nil => rfl
  | cons a rest ih =>
      obtain ⟨id, hid⟩ := hl a (by simp)
      subst hid
      have hstep : applyAct s (Act.register id) = s := by
        simp [applyAct, registerCommand, hs]
      rw [runActs, hstep]
      exact ih s (fun a ha => hl a (List.mem_cons_of_mem _ ha)) hs

/-- Register actions touch only the request table: the state word, the
close flags and the signalled list are unchanged by a run of registers. -/
theorem runActs_regs_fields (s : ClientState) (l : List Act)
    (hl : regsOnly l) :
    (runActs s l).connState = s.connState ∧
    (runActs s l).signalled = s.signalled ∧
    (runActs s l).connClosed = s.connClosed ∧
    (runActs s l).notifClosed = s.notifClosed ∧
    (runActs s l).eventsClosed = s.eventsClosed := by
  induction l generalizing s with
  | nil => exact ⟨rfl, rfl, rfl, rfl, rfl⟩
  | cons a rest ih =>
      obtain ⟨id, hid⟩ := hl a (by simp)
      subst hid
      have hreg : (applyAct s (Act.register id)).connState = s.connState ∧
          (applyAct s (Act.register id)).signalled = s.signalled ∧
          (applyAct s (Act.register id)).connClosed = s.connClosed ∧
          (applyAct s (Act.register id)).notifClosed = s.notifClosed ∧
          (applyAct s (Act.register id)).eventsClosed = s.eventsClosed := by
        by_cases hc : s.connState = ConnClosed <;>
          simp [applyAct, registerCommand, hc]
      have hrest := ih (applyAct s (Act.register id))
        (fun a ha => hl a (List.mem_cons_of_mem _ ha))
      rw [runActs]
      exact ⟨hrest.1.trans hreg.1, hrest.2.1.trans hreg.2.1,
        hrest.2.2.1.trans hreg.2.2.1, hrest.2.2.2.1.trans hreg.2.2.2.1,
        hrest.2.2.2.2.trans hreg.2.2.2.2⟩

/-- Claim C9: whenever Client.Start returns, it returns exactly
ErrConnectionClosed — never nil and never any other value — whether the
shutdown signal came from Stop or from the reader goroutine. Over any
finite prefix of loop inputs, startLoop either has not returned yet or
has returned ErrConnectionClosed. -/
theorem start_returns_connection_closed (s : ClientState)
    (msgs : List LoopMsg) :
    (startLoop s msgs).2 = none ∨
    (startLoop s msgs).2 = some ErrConnectionClosed := by
  induction msgs generalizing s with
  | nil => exact Or.inl rfl
  | cons m rest ih =>
      cases m with
      | ev e => exact ih (routeEvent s e).1
      | shutdown => exact Or.inr rfl

/-- Claim C7: an event of kind Notification is never matched against the
request table; it is unconditionally forwarded to the notification
channel, and nothing else in the state changes. -/
theorem notification_unconditionally_forwarded (s : ClientState)
    (e : Event) (h : e.etype = EventType.notification) :
    routeEvent s e = ({ s with sink := s.sink ++ [e] }, []) := by
  simp [routeEvent, h]

/-- Witness for C7 at a concrete notification event and state. -/
theorem notification_unconditionally_forwarded_witness :
    notifEvent.etype = EventType.notification ∧
    routeEvent initState notifEvent =
      ({ initState with sink := [notifEvent] }, []) :=
  ⟨rfl, notification_unconditionally_forwarded initState notifEvent rfl⟩

/-- Counterexample to C1 as stated: at a concrete Response event whose
invoke id 7 is absent from the (empty) request table, the select branch
of Start drops the event and emits no log entry at all — the source has
no statement, in particular no logger call, in the lookup-miss case. -/
theorem response_miss_unlogged_cex :
    (respEvent 7).etype ≠ EventType.notification ∧
    (respEvent 7).InvokeID ∉ initState.requests ∧
    routeEvent initState (respEvent 7) = (initState, []) := by
  refine ⟨by decide, by decide, ?_⟩
  rfl

/-- Claim C1 (amended): for every Response event consumed by the Session
Loop, the invoke id is looked up in the request table; on a hit the
event is delivered on that request's event channel, on a miss the event
is silently dropped — no log entry is emitted on either path. -/
theorem response_matching_rule (s : ClientState) (e : Event)
    (h : e.etype ≠ EventType.notification) :
    (e.InvokeID ∈ s.requests →
      routeEvent s e =
        ({ s with responses := s.responses ++ [(e.InvokeID, e)] }, [])) ∧
    (e.InvokeID ∉ s.requests → routeEvent s e = (s, [])) := by
  constructor <;> intro hm <;> simp [routeEvent, h, hm]

/-- Witness for C1 at a concrete Response event found in the table. -/
theorem response_matching_rule_witness :
    routeEvent { initState with requests := [7] } (respEvent 7) =
      ({ initState with
          requests := [7],
          responses := [(7, respEvent 7)] }, []) :=
  (response_matching_rule { initState with requests := [7] } (respEvent 7)
    (by decide)).1 (by decide)

/-- Counterexample to C2 as stated: at the concrete bad first event with
keyword ERROR, construction fails with ErrHelloNotReceived and returns
no client, but the connWasClosed component is false — NewClient has no
statement closing the connection on that path, so a live connection and
its reader goroutine are left behind; and when no first event arrives,
construction blocks on the events channel instead of failing. -/
theorem handshake_failure_conn_open_cex :
    newClientHandshake (some errorEvent) =
      ConstructionOutcome.returned (Except.error ApcError.helloNotReceived)
        false [LogEntry.serverCannotAccept] ∧
    newClientHandshake (some errorEvent) ≠
      ConstructionOutcome.returned (Except.error ApcError.helloNotReceived)
        true [LogEntry.serverCannotAccept] ∧
    newClientHandshake none = ConstructionOutcome.blocked := by
  refine ⟨?_, ?_, rfl⟩
  · rfl
  · intro h
    rw [show newClientHandshake (some errorEvent) =
        ConstructionOutcome.returned
          (Except.error ApcError.helloNotReceived) false
          [LogEntry.serverCannotAccept] from rfl] at h
    exact absurd (congrArg
      (fun o => match o with
        | ConstructionOutcome.returned _ b _ => b
        | ConstructionOutcome.blocked => true) h) (by decide)

/-- Claim C2 (amended): whenever the first event is not an AGTSTART
start notification, construction fails with ErrHelloNotReceived and no
usable client is returned, but the underlying connection is not closed
on that path; and when no first event arrives at all, construction
blocks instead of failing. -/
theorem handshake_failure_behavior (e : Event)
    (h : e.Keyword ≠ "AGTSTART" ∨ e.IsStart = false) :
    newClientHandshake (some e) =
      ConstructionOutcome.returned (Except.error ApcError.helloNotReceived)
        false [LogEntry.serverCannotAccept] ∧
    newClientHandshake none = ConstructionOutcome.blocked := by
  refine ⟨?_, rfl⟩
  simp [newClientHandshake, h]

/-- Witness for C2 at the concrete bad first event. -/
theorem handshake_failure_behavior_witness :
    newClientHandshake (some errorEvent) =
      ConstructionOutcome.returned (Except.error ApcError.helloNotReceived)
        false [LogEntry.serverCannotAccept] ∧
    newClientHandshake none = ConstructionOutcome.blocked :=
  handshake_failure_behavior errorEvent (Or.inl (by decide))

/-- Claim C4: for every chunk read by the Frame Reader, the record is
treated as complete (logged and handed to the decoder) exactly when the
chunk's last byte is one of the two terminators ETX and ETB; a chunk
whose last byte is not a terminator is discarded — it contributes
nothing to the run and no state is carried to later chunks, so a record
straddling two chunk reads without a terminator at the chunk boundary is
never reassembled. -/
theorem frame_complete_iff_terminator (dec : List Nat → Except Nat Event)
    (c : List Nat) (rest : List ReadResult) :
    ((processChunk dec c).1 ≠ [] ↔ endsInTerminator c = true) ∧
    ((processChunk dec c).2 ≠ [] → endsInTerminator c = true) ∧
    (endsInTerminator c = false →
      readEvents dec (ReadResult.chunk c :: rest) = readEvents dec rest) := by
  refine ⟨?_, ?_, ?_⟩
  · cases hterm : endsInTerminator c with
    | true =>
        simp only [processChunk, hterm, if_true]
        cases dec c <;> simp
    | false => simp [processChunk, hterm]
  · intro hne
    cases hterm : endsInTerminator c with
    | true => rfl
    | false =>
        rw [processChunk, hterm] at hne
        simp at hne
  · intro hterm
    show ReaderOutput.mk _ _ _ = _
    rw [processChunk, hterm]
    simp

/-- Witness for C4: a concrete chunk without terminator is discarded and
a straddled record is never reassembled. -/
theorem frame_complete_iff_terminator_witness :
    endsInTerminator [65] = false ∧
    readEvents testDecode [ReadResult.chunk [65], ReadResult.chunk [66, 3]] =
      readEvents testDecode [ReadResult.chunk [66, 3]] :=
  ⟨by decide,
    (frame_complete_iff_terminator testDecode [65]
      [ReadResult.chunk [66, 3]]).2.2 (by decide)⟩

/-- Claim C5: a complete record that fails to decode is logged and
skipped and the read loop continues: a malformed terminator-ended chunk
followed by a well-formed one yields exactly one decode-failure log
entry and exactly one delivered event, and the decode error never
escapes the reader (no stream error is reported). -/
theorem decode_failure_nonfatal (dec : List Nat → Except Nat Event)
    (c1 c2 : List Nat) (x : Nat) (e : Event)
    (h1 : endsInTerminator c1 = true) (h2 : endsInTerminator c2 = true)
    (hd1 : dec c1 = Except.error x) (hd2 : dec c2 = Except.ok e) :
    ((readEvents dec [ReadResult.chunk c1, ReadResult.chunk c2]).logs.countP
        isDecodeFailureLog = 1) ∧
    (readEvents dec [ReadResult.chunk c1, ReadResult.chunk c2]).events = [e] ∧
    (readEvents dec [ReadResult.chunk c1, ReadResult.chunk c2]).err = none := by
  simp [readEvents, processChunk, h1, h2, hd1, hd2, List.countP_cons,
    isDecodeFailureLog]

/-- Witness for C5 at concrete chunks: the singleton chunk fails to
decode under testDecode, the two-byte chunk decodes. -/
theorem decode_failure_nonfatal_witness :
    ((readEvents testDecode [ReadResult.chunk [3],
        ReadResult.chunk [66, 3]]).logs.countP isDecodeFailureLog = 1) ∧
    (readEvents testDecode [ReadResult.chunk [3],
        ReadResult.chunk [66, 3]]).events =
      [{ Keyword := "AGTTEST", etype := EventType.response, Client := "c",
         ProcessID := 1, InvokeID := 2, Segments := 1, Incomplete := false,
         start := false }] ∧
    (readEvents testDecode [ReadResult.chunk [3],
        ReadResult.chunk [66, 3]]).err = none :=
  decode_failure_nonfatal testDecode [3] [66, 3] 0 _
    (by decide) (by decide) rfl rfl

/-- The first stream error in the read results terminates readEvents and
is the error it returns. -/
theorem readEvents_first_error (dec : List Nat → Except Nat Event)
    (pre : List ReadResult) (e : StreamErr) (post : List ReadResult)
    (hpre : ∀ r ∈ pre, r.isChunk = true) :
    (readEvents dec (pre ++ ReadResult.streamError e :: post)).err = some e := by
  induction pre with
  | nil => rfl
  | cons r rest ih =>
      cases r with
      | chunk c =>
          show (readEvents dec (ReadResult.chunk c :: (rest ++
            ReadResult.streamError e :: post))).err = some e
          rw [readEvents]
          exact ih (fun r hr => hpre r (List.mem_cons_of_mem _ hr))
      | streamError x =>
          exact absurd (hpre (ReadResult.streamError x) (by simp))
            (by simp [ReadResult.isChunk])

/-- Feeding the loop a run of plain events followed by the shutdown
signal makes Start return ErrConnectionClosed. -/
theorem startLoop_events_then_shutdown (evs : List Event) (s : ClientState) :
    (startLoop s (evs.map LoopMsg.ev ++ [LoopMsg.shutdown])).2 =
      some ErrConnectionClosed := by
  induction evs generalizing s with
  | nil => rfl
  | cons e rest ih =>
      show (startLoop (routeEvent s e).1 (rest.map LoopMsg.ev ++
        [LoopMsg.shutdown])).2 = some ErrConnectionClosed
      exact ih (routeEvent s e).1

/-- Claim C6: every I/O failure on the underlying stream — disconnect as
well as expiry of the rolling read deadline — terminates readEvents,
which returns that error, and through the reader goroutine's shutdown
signal the Session Loop shuts down and Start returns
ErrConnectionClosed. -/
theorem io_failure_fatal (dec : List Nat → Except Nat Event)
    (pre : List ReadResult) (e : StreamErr) (post : List ReadResult)
    (hpre : ∀ r ∈ pre, r.isChunk = true) :
    (readEvents dec (pre ++ ReadResult.streamError e :: post)).err = some e ∧
    (pipeline dec (pre ++ ReadResult.streamError e :: post)).2 =
      some ErrConnectionClosed := by
  have herr := readEvents_first_error dec pre e post hpre
  refine ⟨herr, ?_⟩
  rw [pipeline, herr]
  exact startLoop_events_then_shutdown _ _

/-- Witness for C6: a deadline expiry after one well-framed chunk makes
the reader return the timeout and the pipeline end in
ErrConnectionClosed. -/
theorem io_failure_fatal_witness :
    (readEvents testDecode [ReadResult.chunk [66, 3],
        ReadResult.streamError StreamErr.timeout]).err =
      some StreamErr.timeout ∧
    (pipeline testDecode [ReadResult.chunk [66, 3],
        ReadResult.streamError StreamErr.timeout]).2 =
      some ErrConnectionClosed :=
  io_failure_fatal testDecode [ReadResult.chunk [66, 3]] StreamErr.timeout []
    (by decide)

/-- Routing one event adds at most that event to the notification sink. -/
theorem routeEvent_sink_sub (s : ClientState) (e x : Event)
    (hx : x ∈ (routeEvent s e).1.sink) : x ∈ s.sink ∨ x = e := by
  rw [routeEvent] at hx
  split at hx
  · rcases List.mem_append.mp hx with h | h
    · exact Or.inl h
    · exact Or.inr (List.mem_singleton.mp h)
  · split at hx
    · exact Or.inl hx
    · exact Or.inl hx

/-- The shutdown branch never touches the notification sink contents. -/
theorem shutdownStep_sink (s : ClientState) : (shutdownStep s).sink = s.sink := rfl

/-- Every event in the sink after a run of the loop was already in the
sink or arrived as one of the loop's event inputs. -/
theorem startLoop_sink_sub (msgs : List LoopMsg) (s : ClientState) (x : Event)
    (hx : x ∈ (startLoop s msgs).1.sink) :
    x ∈ s.sink ∨ LoopMsg.ev x ∈ msgs := by
  induction msgs generalizing s with
  | nil => exact Or.inl hx
  | cons m rest ih =>
      cases m with
      | ev e =>
          have hx2 : x ∈ (startLoop (routeEvent s e).1 rest).1.sink := hx
          rcases ih (routeEvent s e).1 hx2 with h | h
          · rcases routeEvent_sink_sub s e x h with h2 | h2
            · exact Or.inl h2
            · exact Or.inr (by simp [h2])
          · exact Or.inr (List.mem_cons_of_mem _ h)
      | shutdown =>
          have hx2 : x ∈ (shutdownStep s).sink := hx
          rw [shutdownStep_sink] at hx2
          exact Or.inl hx2

/-- Claim C10: on a successful construction, NewClient itself consumes
the first decoded event (the AGTSTART start notification) from the
internal queue before the Session Loop runs: the loop only ever sees the
remaining events, and the consumed start event never appears in the
notification sink. -/
theorem handshake_event_not_in_sink (e : Event) (rest : List Event)
    (hk : e.Keyword = "AGTSTART") (hst : e.IsStart = true) (hnot : e ∉ rest) :
    sessionRun (e :: rest) =
      some (startLoop initState (rest.map LoopMsg.ev)) ∧
    e ∉ (startLoop initState (rest.map LoopMsg.ev)).1.sink := by
  constructor
  · rw [sessionRun, newClientHandshake]
    rw [if_neg]
    simp [hk, hst]
  · intro hmem
    rcases startLoop_sink_sub (rest.map LoopMsg.ev) initState e hmem with h | h
    · simp [initState] at h
    · rcases List.mem_map.mp h with ⟨y, hy, hye⟩
      cases hye
      exact hnot hy

/-- Witness for C10: a session whose queue starts with the AGTSTART
event followed by one call notification; the start event is consumed by
construction and never forwarded. -/
theorem handshake_event_not_in_sink_witness :
    sessionRun [startEvent, notifEvent] =
      some (startLoop initState [LoopMsg.ev notifEvent]) ∧
    startEvent ∉ (startLoop initState [LoopMsg.ev notifEvent]).1.sink :=
  handshake_event_not_in_sink startEvent [notifEvent] rfl rfl (by decide)

/-- A single action either preserves the state word or sets it to
ConnClosed. -/
theorem applyAct_connState (s : ClientState) (a : Act) :
    (applyAct s a).connState = s.connState ∨
    (applyAct s a).connState = ConnClosed := by
  cases a with
  | storeClosed => exact Or.inr rfl
  | register id =>
      by_cases hc : s.connState = ConnClosed <;>
        simp [applyAct, registerCommand, hc]
  | closeConn => exact Or.inl rfl
  | closeNotif => exact Or.inl rfl
  | closeEvents => exact Or.inl rfl
  | drain => exact Or.inl rfl

/-- Over any run, the state word is either still the initial word or
ConnClosed. -/
theorem runActs_connState (s : ClientState) (acts : List Act) :
    (runActs s acts).connState = s.connState ∨
    (runActs s acts).connState = ConnClosed := by
  induction acts generalizing s with
  | nil => exact Or.inl rfl
  | cons a rest ih =>
      rcases ih (applyAct s a) with h | h
      · rcases applyAct_connState s a with h2 | h2
        · exact Or.inl (by rw [runActs, h, h2])
        · exact Or.inr (by rw [runActs, h, h2])
      · exact Or.inr (by rw [runActs, h])

/-- Once ConnClosed, every action leaves the state word ConnClosed. -/
theorem applyAct_closed (s : ClientState) (a : Act)
    (hs : s.connState = ConnClosed) :
    (applyAct s a).connState = ConnClosed := by
  cases a with
  | storeClosed => rfl
  | register id => simp [applyAct, registerCommand, hs]
  | closeConn => exact hs
  | closeNotif => exact hs
  | closeEvents => exact hs
  | drain => exact hs

/-- Claim C8: the connection state takes exactly the two source values
ConnOK and ConnClosed; its only transition is the one-way move to
ConnClosed performed by the storeClosed statement of the Session Loop's
shutdown branch — every other action preserves the word, and from
ConnClosed no run ever leaves it — and once ConnClosed, registering a
new command fails immediately with ErrConnectionClosed, leaving the
state untouched. -/
theorem connection_state_machine (s t : ClientState) (acts : List Act)
    (a : Act) (id : Nat)
    (hs : s.connState = ConnOK) (ht : t.connState = ConnClosed) :
    ((runActs s acts).connState = ConnOK ∨
      (runActs s acts).connState = ConnClosed) ∧
    (runActs t acts).connState = ConnClosed ∧
    (a ≠ Act.storeClosed → (applyAct s a).connState = s.connState) ∧
    registerCommand t id = (t, some ErrConnectionClosed) := by
  refine ⟨?_, ?_, ?_, ?_⟩
  · rcases runActs_connState s acts with h | h
    · exact Or.inl (h.trans hs)
    · exact Or.inr h
  · induction acts generalizing t with
    | nil => exact ht
    | cons b rest ih =>
        rw [runActs]
        exact ih (applyAct t b) (applyAct_closed t b ht)
  · intro hne
    cases a with
    | storeClosed => exact absurd rfl hne
    | register i =>
        by_cases hc : s.connState = ConnClosed <;>
          simp [applyAct, registerCommand, hc]
    | closeConn => rfl
    | closeNotif => rfl
    | closeEvents => rfl
    | drain => rfl
  · simp [registerCommand, ht, ErrConnectionClosed]

/-- Witness for C8 at concrete states: a run of one register and the
shutdown flip from the open state, a drain action, and a rejected
registration on the closed state. -/
theorem connection_state_machine_witness :
    ((runActs initState [Act.register 4, Act.storeClosed]).connState =
        ConnOK ∨
      (runActs initState [Act.register 4, Act.storeClosed]).connState =
        ConnClosed) ∧
    (runActs { initState with connState := ConnClosed }
        [Act.register 4, Act.storeClosed]).connState = ConnClosed ∧
    (applyAct initState Act.drain).connState = initState.connState ∧
    registerCommand { initState with connState := ConnClosed } 9 =
      ({ initState with connState := ConnClosed },
        some ErrConnectionClosed) := by
  have h := connection_state_machine initState
    { initState with connState := ConnClosed }
    [Act.register 4, Act.storeClosed] Act.drain 9 rfl rfl
  exact ⟨h.1, h.2.1, h.2.2.1 (by decide), h.2.2.2⟩

/-- Claim C3: the shutdown branch runs its five statements exactly once
and in program order — state word to ConnClosed, close the connection,
close the notification channel, close the events channel, send done to
every pending request — witnessed by the order discipline holding at
every prefix and by each statement occurring once in the branch; and
under any interleaving of the branch with concurrent registrations,
every request present in the table at the end has received the done
signal, so every blocked invocation unblocks. -/
theorem shutdown_sequence_correct (s0 : ClientState)
    (h0 : s0.connState = ConnOK) (h1 : s0.connClosed = false)
    (h2 : s0.notifClosed = false) (h3 : s0.eventsClosed = false)
    (h4 : s0.signalled = []) :
    (∀ k, k ≤ 5 → orderInv (runActs s0 (shutdownSeq.take k))) ∧
    (shutdownSeq.count Act.storeClosed = 1 ∧
     shutdownSeq.count Act.closeConn = 1 ∧
     shutdownSeq.count Act.closeNotif = 1 ∧
     shutdownSeq.count Act.closeEvents = 1 ∧
     shutdownSeq.count Act.drain = 1) ∧
    (∀ acts, isShutdownInterleaving acts →
      ∀ id ∈ (runActs s0 acts).requests, id ∈ (runActs s0 acts).signalled) := by
  refine ⟨?_, by decide, ?_⟩
  · intro k hk
    interval_cases k <;>
      simp [shutdownSeq, runActs, applyAct, orderInv, ConnClosed, h1, h2, h3, h4]
  · intro acts hint
    obtain ⟨r0, r1, r2, r3, r4, r5, hr0, hr1, hr2, hr3, hr4, hr5, heq⟩ := hint
    subst heq
    have hA := runActs_regs_fields s0 r0 hr0
    set sA := runActs s0 r0 with hsAdef
    have hB : runActs sA (Act.storeClosed :: r1) = shutA sA := by
      rw [runActs]
      exact runActs_regs_closed _ r1 hr1 rfl
    have hC : runActs (shutA sA) (Act.closeConn :: r2) = shutB sA := by
      rw [runActs]
      exact runActs_regs_closed _ r2 hr2 rfl
    have hD : runActs (shutB sA) (Act.closeNotif :: r3) = shutC sA := by
      rw [runActs]
      exact runActs_regs_closed _ r3 hr3 rfl
    have hE : runActs (shutC sA) (Act.closeEvents :: r4) = shutD sA := by
      rw [runActs]
      exact runActs_regs_closed _ r4 hr4 rfl
    have hF : runActs (shutD sA) (Act.drain :: r5) = shutE sA := by
      rw [runActs]
      exact runActs_regs_closed _ r5 hr5 rfl
    have hfinal : runActs s0 (r0 ++ Act.storeClosed :: r1 ++
        Act.closeConn :: r2 ++ Act.closeNotif :: r3 ++
        Act.closeEvents :: r4 ++ Act.drain :: r5) = shutE sA := by
      simp only [runActs_append]
      rw [← hsAdef, hB, hC, hD, hE, hF]
    intro id hid
    rw [hfinal] at hid
    rw [hfinal]
    show id ∈ sA.signalled ++ sA.requests
    have hsig : sA.signalled = [] := hA.2.1.trans h4
    rw [hsig, List.nil_append]
    exact hid

/-- Witness for C3: concrete interleaving with registrations before the
state flip, between two shutdown statements, and after the drain; both
the request registered before shutdown and the requests already in the
table receive the done signal. -/
theorem shutdown_sequence_correct_witness :
    orderInv (runActs wState (shutdownSeq.take 5)) ∧
    shutdownSeq.count Act.drain = 1 ∧
    1 ∈ (runActs wState wActs).signalled ∧
    5 ∈ (runActs wState wActs).signalled := by
  have h := shutdown_sequence_correct wState rfl rfl rfl rfl rfl
  have hint : isShutdownInterleaving wActs :=
    ⟨[Act.register 5], [Act.register 7], [], [], [], [Act.register 9],
      fun a ha => ⟨5, by simpa using ha⟩,
      fun a ha => ⟨7, by simpa using ha⟩,
      fun a ha => absurd ha (List.not_mem_nil a),
      fun a ha => absurd ha (List.not_mem_nil a),
      fun a ha => absurd ha (List.not_mem_nil a),
      fun a ha => ⟨9, by simpa using ha⟩, rfl⟩
  exact ⟨h.1 5 (by decide), h.2.1.2.2.2.2,
    h.2.2 wActs hint 1 (by decide), h.2.2 wActs hint 5 (by decide)⟩

end Apc
